import Mathlib

/-!
Verification development for the real-time audio capture / incremental
transcription subsystem of the nhs-paperwork-agent repository.

The Python sources embedded here are:
  * `src/services/realtime_audio_service.py` — `AudioBuffer` (ring buffer),
    `RealtimeAudioService` (NumPy-based session service),
    `RealtimeTranscriptionManager`;
  * `src/services/basic_realtime_audio.py` — `BasicAudioSession`,
    `BasicRealtimeAudioService` (the variant wired to the HTTP API),
    `BasicRealtimeTranscriptionManager`;
  * `src/api/main.py` — the `/audio/session/...` endpoint shells.

Strings are modelled as `List Char`, audio sample arrays as `List Int`,
byte strings as `List Nat`, wall-clock instants as `Nat`, and durations as
`ℚ` (Python floats only ever hold exactly representable small values in the
code paths modelled here).  The external Whisper call is modelled as an
oracle `Transcriber`; a raised exception is its `Except.error` branch, and
every `try/except` of the source that converts an exception into a returned
value appears here as a `match` on that oracle result.
-/

namespace NHSAudio

/-! ## Python `str.strip` on `List Char` -/

/-- The whitespace test used by Python `str.strip()` (restricted to the
ASCII whitespace characters, which are the only ones the code produces). -/
def isSpace (c : Char) : Bool :=
  c = ' ' || c = '\t' || c = '\n' || c = '\x0d' || c = '\x0b' || c = '\x0c'

/-- Drop leading whitespace (Python `str.lstrip()`). -/
def trimL (s : List Char) : List Char := s.dropWhile isSpace

/-- Drop trailing whitespace (Python `str.rstrip()`). -/
def trimR (s : List Char) : List Char := (s.reverse.dropWhile isSpace).reverse

/-- Python `str.strip()`. -/
def strip (s : List Char) : List Char := trimR (trimL s)

/-! ## Exact float arithmetic

The Python sources compute with floats, but every float appearing in the
modelled code paths (`0.5`, `1.0`, `3.0`, `30.0`, quotients of sample
counts by the sample rate, …) is an exactly representable rational and the
operations on them are exact, so they are embedded as `ℚ`.  The helpers
below realise the handful of float operations the sources perform by
integer arithmetic on numerator and denominator; the bridge lemmas
immediately after each one show they agree with the rational-number
operation. -/

/-- Python `int(n * q)` for a natural `n` and nonnegative rational `q`
(truncation = floor here). -/
def floorNatMulRat (n : Nat) (q : ℚ) : Nat := ((n : Int) * q.num).toNat / q.den

/-- Python `q <= n` for a rational `q` and natural `n`. -/
def ratLeNat (q : ℚ) (n : Nat) : Bool := decide (q.num ≤ (n : Int) * q.den)

/-- Python `m < n * q` for naturals `m`, `n` and a rational `q`. -/
def natLtNatMulRat (m n : Nat) (q : ℚ) : Bool :=
  decide ((m : Int) * q.den < (n : Int) * q.num)

/-- Python `m / d >= q` for naturals `m`, `d > 0` and a rational `q`. -/
def divGeRat (m d : Nat) (q : ℚ) : Bool := decide (q.num * d ≤ (m : Int) * q.den)

/-! ## `AudioBuffer` — the ring buffer of `realtime_audio_service.py` -/

/-- Overwrite the slice `l[start : start + data.length]` with `data`,
Python slice assignment for an in-range slice. -/
def setSlice (l : List Int) (start : Nat) (data : List Int) : List Int :=
  l.take start ++ data ++ l.drop (start + data.length)

/-- `AudioBuffer.__init__` state: `sample_rate`, `buffer_size`,
the backing array `buffer`, `write_index` and `is_full`. -/
structure AudioBuffer where
  sample_rate : Nat
  buffer_size : Nat
  buffer : List Int
  write_index : Nat
  is_full : Bool
deriving Repr, DecidableEq

namespace AudioBuffer

/-- `AudioBuffer(sample_rate, buffer_duration)`:
`buffer_size = int(sample_rate * buffer_duration)`, zero-filled storage,
cursor at 0, not full. -/
def init (sample_rate : Nat) (buffer_duration : ℚ) : AudioBuffer :=
  let size := floorNatMulRat sample_rate buffer_duration
  { sample_rate := sample_rate
    buffer_size := size
    buffer := List.replicate size 0
    write_index := 0
    is_full := false }

/-- `AudioBuffer.write(audio_data)`, with the three branches of the source:
oversize data keeps the trailing `buffer_size` samples; data that fits
before the end is copied in place and the cursor advanced modulo the size;
wrapping data is split into two slice assignments and marks the buffer
full. -/
def write (b : AudioBuffer) (audio_data : List Int) : AudioBuffer :=
  let data_length := audio_data.length
  if data_length ≥ b.buffer_size then
    { b with
        buffer := audio_data.drop (data_length - b.buffer_size)
        write_index := 0
        is_full := true }
  else
    let end_index := b.write_index + data_length
    if end_index ≤ b.buffer_size then
      { b with
          buffer := setSlice b.buffer b.write_index audio_data
          write_index := end_index % b.buffer_size }
    else
      let first_chunk_size := b.buffer_size - b.write_index
      { b with
          buffer :=
            setSlice (setSlice b.buffer b.write_index
                        (audio_data.take first_chunk_size))
              0 (audio_data.drop first_chunk_size)
          write_index := data_length - first_chunk_size
          is_full := true }

/-- `AudioBuffer.read_last_seconds(duration)`:
`samples = min(int(sample_rate * duration), buffer_size)`; an un-full
buffer with cursor below `samples` returns `buffer[:write_index]`; a cursor
at or above `samples` returns the contiguous `buffer[write_index -
samples : write_index]`; otherwise the two wrapped halves are
concatenated. -/
def read_last_seconds (b : AudioBuffer) (duration : ℚ) : List Int :=
  let samples := min (floorNatMulRat b.sample_rate duration) b.buffer_size
  if ¬ b.is_full ∧ b.write_index < samples then
    b.buffer.take b.write_index
  else if b.write_index ≥ samples then
    (b.buffer.take b.write_index).drop (b.write_index - samples)
  else
    b.buffer.drop (b.buffer_size - (samples - b.write_index)) ++
      b.buffer.take b.write_index

end AudioBuffer

/-- A four-sample ring buffer (`sample_rate = 4`, one second capacity),
then the write sequence `[1,2]`, `[3,4]`, `[5]` — five samples in total,
more than the capacity, with the second write ending exactly at the
capacity boundary. -/
def c1Buffer : AudioBuffer :=
  (((AudioBuffer.init 4 1).write [1, 2]).write [3, 4]).write [5]

/-! ## `basic_realtime_audio.py` — the service wired to the HTTP API

`main.py` instantiates `get_basic_transcription_manager`, so the
`BasicRealtimeAudioService` below is the implementation behind every
`/audio/session/...` endpoint and is embedded in full.  The external
Whisper call (`client.audio.transcriptions.create`) is the oracle
`Transcriber`; it receives the bytes of the WAV file the service wrote and
either returns transcript text with a confidence value (the
`getattr(transcript, 'confidence', 0.9)` default is the oracle's business)
or raises, which is the `Except.error` branch. -/

/-- The external transcription collaborator: WAV bytes in, either an
exception message or `(text, confidence)` out. -/
def Transcriber : Type := List Nat → Except (List Char) (List Char × ℚ)

/-- One entry of a session's `transcription_segments` log, as built by
`BasicAudioSession.add_transcription_segment`: stripped text, the capture
timestamp, the confidence estimate and the owning session id. -/
structure Segment where
  text : List Char
  timestamp : Nat
  confidence : ℚ
  session_id : String
deriving Repr, DecidableEq

/-- The per-session state of `BasicAudioSession.__init__`. -/
structure BasicAudioSession where
  session_id : String
  created_at : Nat
  is_recording : Bool
  recording_start_time : Option Nat
  recording_end_time : Option Nat
  transcription_segments : List Segment
  full_transcription : List Char
  transcription_queue : List Segment
  audio_buffer : List Nat
  last_transcription_time : Option Nat
deriving Repr, DecidableEq

namespace BasicAudioSession

/-- `BasicAudioSession(session_id)` (the creation instant stands in for
`datetime.now()`). -/
def init (session_id : String) (created_at : Nat) : BasicAudioSession :=
  { session_id := session_id
    created_at := created_at
    is_recording := false
    recording_start_time := none
    recording_end_time := none
    transcription_segments := []
    full_transcription := []
    transcription_queue := []
    audio_buffer := []
    last_transcription_time := none }

/-- `BasicAudioSession.start_recording`. -/
def start_recording (s : BasicAudioSession) (now : Nat) : BasicAudioSession :=
  { s with is_recording := true, recording_start_time := some now }

/-- `BasicAudioSession.stop_recording`. -/
def stop_recording (s : BasicAudioSession) (now : Nat) : BasicAudioSession :=
  { s with is_recording := false, recording_end_time := some now }

/-- `BasicAudioSession.add_transcription_segment(text, confidence)`:
builds the segment from `text.strip()`, appends it to the segment log,
extends `full_transcription` with `" " + text.strip()`, enqueues the
segment on the delivery queue and updates `last_transcription_time`. -/
def add_transcription_segment (s : BasicAudioSession) (text : List Char)
    (confidence : ℚ) (now : Nat) : BasicAudioSession :=
  let segment : Segment :=
    { text := strip text
      timestamp := now
      confidence := confidence
      session_id := s.session_id }
  { s with
      transcription_segments := s.transcription_segments ++ [segment]
      full_transcription := s.full_transcription ++ (' ' :: strip text)
      transcription_queue := s.transcription_queue ++ [segment]
      last_transcription_time := some now }

/-- `BasicAudioSession.add_audio_data(audio_data)`. -/
def add_audio_data (s : BasicAudioSession) (audio_data : List Nat) :
    BasicAudioSession :=
  { s with audio_buffer := s.audio_buffer ++ audio_data }

/-- `BasicAudioSession.clear_audio_buffer()`. -/
def clear_audio_buffer (s : BasicAudioSession) : BasicAudioSession :=
  { s with audio_buffer := [] }

/-- `BasicAudioSession.get_recording_duration()`. -/
def get_recording_duration (s : BasicAudioSession) (now : Nat) : Nat :=
  match s.recording_start_time with
  | none => 0
  | some start => (s.recording_end_time.getD now) - start

end BasicAudioSession

/-- The fields of the `get_status` / `get_session_status` response dict. -/
structure SessionStatus where
  session_id : String
  is_recording : Bool
  created_at : Nat
  recording_duration : Nat
  segment_count : Nat
  full_transcription : List Char
  audio_buffer_size : Nat
  last_transcription : Option Nat
deriving Repr, DecidableEq

/-- The fields of the `get_live_transcription` response dict. -/
structure LiveTranscription where
  session_id : String
  is_recording : Bool
  new_segments : List Segment
  full_transcription : List Char
  segment_count : Nat
deriving Repr, DecidableEq

/-- Result of `transcribe_audio_file`: the session-missing error dict, the
caught-exception error dict, the success dict, or the no-speech dict. -/
inductive TranscribeResult where
  | notFound
  | transcriptionError (msg : List Char)
  | success (text : List Char) (confidence : ℚ)
  | noSpeech
deriving Repr, DecidableEq

/-- Result of `process_audio_data`: the session-missing error dict, the
`status: "processed"` dict (carrying the inner transcription result), or
the `status: "buffering"` dict (carrying the buffer size; the reported
`estimated_duration` is `buffer_size / 32000`). -/
inductive ProcessResult where
  | notFound
  | processed (r : TranscribeResult)
  | buffering (buffer_size : Nat)
deriving Repr, DecidableEq

/-- `BasicRealtimeAudioService`: the `sessions` dict. -/
structure BasicRealtimeAudioService where
  sessions : String → Option BasicAudioSession

namespace BasicRealtimeAudioService

/-- The service as constructed: an empty `sessions` dict. -/
def empty : BasicRealtimeAudioService := { sessions := fun _ => none }

/-- `self.sessions[session_id] = s` on a dict. -/
def update (svc : BasicRealtimeAudioService) (session_id : String)
    (s : BasicAudioSession) : BasicRealtimeAudioService :=
  { sessions := fun k => if k = session_id then some s else svc.sessions k }

/-- `del self.sessions[session_id]`. -/
def erase (svc : BasicRealtimeAudioService) (session_id : String) :
    BasicRealtimeAudioService :=
  { sessions := fun k => if k = session_id then none else svc.sessions k }

/-- `create_session`: stores a fresh `BasicAudioSession` under the given
id (the uuid4 generation is the caller supplying a fresh id). -/
def create_session (svc : BasicRealtimeAudioService) (session_id : String)
    (now : Nat) : BasicRealtimeAudioService × String :=
  (svc.update session_id (BasicAudioSession.init session_id now), session_id)

/-- `start_recording`: `False` for an unknown id, otherwise delegates to
the session and returns `True`. -/
def start_recording (svc : BasicRealtimeAudioService) (session_id : String)
    (now : Nat) : BasicRealtimeAudioService × Bool :=
  match svc.sessions session_id with
  | none => (svc, false)
  | some s => (svc.update session_id (s.start_recording now), true)

/-- `stop_recording`: `False` for an unknown id, otherwise delegates to
the session and returns `True`.  (Note: no transcription work happens
here — the transcriber oracle does not even occur in this definition.) -/
def stop_recording (svc : BasicRealtimeAudioService) (session_id : String)
    (now : Nat) : BasicRealtimeAudioService × Bool :=
  match svc.sessions session_id with
  | none => (svc, false)
  | some s => (svc.update session_id (s.stop_recording now), true)

/-- `int.to_bytes(2, 'little')`. -/
def le2 (k : Nat) : List Nat := [k % 256, k / 256 % 256]

/-- `int.to_bytes(4, 'little')`. -/
def le4 (k : Nat) : List Nat :=
  [k % 256, k / 256 % 256, k / 65536 % 256, k / 16777216 % 256]

/-- `_create_temp_wav_from_buffer`: the exact byte string written to the
temporary `.wav` file — RIFF/WAVE/fmt/data chunks for 16 kHz, 16-bit,
mono PCM followed by the raw buffer. -/
def _create_temp_wav_from_buffer (audio_buffer : List Nat) : List Nat :=
  let sample_rate := 16000
  let bits_per_sample := 16
  let channels := 1
  [82, 73, 70, 70]
    ++ le4 (audio_buffer.length + 36)
    ++ [87, 65, 86, 69]
    ++ [102, 109, 116, 32]
    ++ le4 16
    ++ le2 1
    ++ le2 channels
    ++ le4 sample_rate
    ++ le4 (sample_rate * channels * bits_per_sample / 8)
    ++ le2 (channels * bits_per_sample / 8)
    ++ le2 bits_per_sample
    ++ [100, 97, 116, 97]
    ++ le4 audio_buffer.length
    ++ audio_buffer

/-- `transcribe_audio_file(session_id, audio_file_path)`: looks the
session up, hands the WAV bytes to Whisper, and on non-empty stripped
text adds a segment; a raised exception is caught and returned as the
error dict, leaving the session untouched. -/
def transcribe_audio_file (tr : Transcriber) (svc : BasicRealtimeAudioService)
    (session_id : String) (wav : List Nat) (now : Nat) :
    BasicRealtimeAudioService × TranscribeResult :=
  match svc.sessions session_id with
  | none => (svc, .notFound)
  | some s =>
    match tr wav with
    | .error e => (svc, .transcriptionError e)
    | .ok (text, confidence) =>
      if strip text ≠ [] then
        (svc.update session_id
            (s.add_transcription_segment (strip text) confidence now),
          .success (strip text) confidence)
      else
        (svc, .noSpeech)

/-- `process_audio_data(session_id, audio_data)`: appends the audio to the
session buffer unconditionally, then — when
`estimated_duration = buffer_size / (16000 * 2) >= 3.0` — writes the
buffer to a WAV file, transcribes it and clears the buffer; otherwise
reports `buffering`. -/
def process_audio_data (tr : Transcriber) (svc : BasicRealtimeAudioService)
    (session_id : String) (audio_data : List Nat) (now : Nat) :
    BasicRealtimeAudioService × ProcessResult :=
  match svc.sessions session_id with
  | none => (svc, .notFound)
  | some s =>
    let s1 := s.add_audio_data audio_data
    let svc1 := svc.update session_id s1
    let buffer_size := s1.audio_buffer.length
    if divGeRat buffer_size (16000 * 2) 3 then
      let temp_wav := _create_temp_wav_from_buffer s1.audio_buffer
      let step := transcribe_audio_file tr svc1 session_id temp_wav now
      match (step.1).sessions session_id with
      | none => (step.1, .processed step.2)
      | some s2 => ((step.1).update session_id s2.clear_audio_buffer,
          .processed step.2)
    else
      (svc1, .buffering buffer_size)

/-- `get_session_status(session_id)`. -/
def get_session_status (svc : BasicRealtimeAudioService) (session_id : String)
    (now : Nat) : Option SessionStatus :=
  match svc.sessions session_id with
  | none => none
  | some s => some
    { session_id := s.session_id
      is_recording := s.is_recording
      created_at := s.created_at
      recording_duration := s.get_recording_duration now
      segment_count := s.transcription_segments.length
      full_transcription := strip s.full_transcription
      audio_buffer_size := s.audio_buffer.length
      last_transcription := s.last_transcription_time }

/-- `get_live_transcription(session_id)`: drains the whole delivery queue
(in FIFO order) into `new_segments` and reports the stripped running
transcript and the segment count. -/
def get_live_transcription (svc : BasicRealtimeAudioService)
    (session_id : String) :
    BasicRealtimeAudioService × Option LiveTranscription :=
  match svc.sessions session_id with
  | none => (svc, none)
  | some s =>
    (svc.update session_id { s with transcription_queue := [] },
      some
        { session_id := session_id
          is_recording := s.is_recording
          new_segments := s.transcription_queue
          full_transcription := strip s.full_transcription
          segment_count := s.transcription_segments.length })

/-- `get_final_transcription(session_id)`: the stripped running
transcript, `None` for an unknown id. -/
def get_final_transcription (svc : BasicRealtimeAudioService)
    (session_id : String) : Option (List Char) :=
  match svc.sessions session_id with
  | none => none
  | some s => some (strip s.full_transcription)

/-- `cleanup_session(session_id)`: deletes the entry and returns `True`;
returns `False` (no exception) for an unknown id. -/
def cleanup_session (svc : BasicRealtimeAudioService) (session_id : String) :
    BasicRealtimeAudioService × Bool :=
  match svc.sessions session_id with
  | none => (svc, false)
  | some _ => (svc.erase session_id, true)

end BasicRealtimeAudioService

/-- The `stop_recording` response of either transcription manager:
the `status: "recording_stopped"` dict (with `final_transcription` from
`get_final_transcription`) or the `status: "error"` dict. -/
inductive StopResponse where
  | recording_stopped (session_id : String)
      (final_transcription : Option (List Char)) (timestamp : Nat)
  | error
deriving Repr, DecidableEq

/-- `BasicRealtimeTranscriptionManager`: the wrapped service plus the
`active_sessions` set. -/
structure BasicRealtimeTranscriptionManager where
  audio_service : BasicRealtimeAudioService
  active_sessions : List String

namespace BasicRealtimeTranscriptionManager

/-- `get_basic_transcription_manager` start state. -/
def empty : BasicRealtimeTranscriptionManager :=
  { audio_service := BasicRealtimeAudioService.empty, active_sessions := [] }

/-- `BasicRealtimeTranscriptionManager.create_session`. -/
def create_session (mgr : BasicRealtimeTranscriptionManager)
    (session_id : String) (now : Nat) :
    BasicRealtimeTranscriptionManager × String :=
  let step := mgr.audio_service.create_session session_id now
  ({ audio_service := step.1
     active_sessions := mgr.active_sessions ++ [session_id] }, step.2)

/-- `BasicRealtimeTranscriptionManager.start_recording`: a `True` from the
service becomes the `recording_started` dict, a `False` the error dict
(collapsed here to the success Boolean plus the timestamp). -/
def start_recording (mgr : BasicRealtimeTranscriptionManager)
    (session_id : String) (now : Nat) :
    BasicRealtimeTranscriptionManager × Bool :=
  let step := mgr.audio_service.start_recording session_id now
  ({ mgr with audio_service := step.1 }, step.2)

/-- `BasicRealtimeTranscriptionManager.stop_recording`: on success the
response carries `get_final_transcription` of the stopped session.
No transcriber oracle occurs anywhere in this call path. -/
def stop_recording (mgr : BasicRealtimeTranscriptionManager)
    (session_id : String) (now : Nat) :
    BasicRealtimeTranscriptionManager × StopResponse :=
  let step := mgr.audio_service.stop_recording session_id now
  if step.2 then
    ({ mgr with audio_service := step.1 },
      .recording_stopped session_id
        (step.1.get_final_transcription session_id) now)
  else
    ({ mgr with audio_service := step.1 }, .error)

/-- `BasicRealtimeTranscriptionManager.cleanup_session`: discards the id
from `active_sessions`, then returns the service's cleanup Boolean. -/
def cleanup_session (mgr : BasicRealtimeTranscriptionManager)
    (session_id : String) : BasicRealtimeTranscriptionManager × Bool :=
  let active := mgr.active_sessions.filter (fun k => ¬ k = session_id)
  let step := mgr.audio_service.cleanup_session session_id
  ({ audio_service := step.1, active_sessions := active }, step.2)

end BasicRealtimeTranscriptionManager

/-- `DELETE /audio/session/{session_id}` (`cleanup_audio_session` in
`main.py`): maps the manager's Boolean to the status strings
`"cleaned_up"` / `"not_found"`. -/
def cleanup_audio_session (mgr : BasicRealtimeTranscriptionManager)
    (session_id : String) : BasicRealtimeTranscriptionManager × String :=
  let step := mgr.cleanup_session session_id
  (step.1, if step.2 then "cleaned_up" else "not_found")

/-! ## `RealtimeAudioService` — the NumPy ring-buffer variant

The richer service of `realtime_audio_service.py`.  Its transcriber
oracle consumes the float samples handed to `sf.write` (the WAV container
is produced by the `soundfile` library there, not by this code).  The
constructor pins `sample_rate = 16000`, `chunk_duration = 3.0` and
`buffer_duration = 30.0`; the state-machine logic is uniform in these
values, so they are carried as fields and theorems quantify over them. -/

/-- The external transcription collaborator of the NumPy variant:
audio samples in, exception message or `(text, confidence)` out. -/
def RTTranscriber : Type := List Int → Except (List Char) (List Char × ℚ)

/-- One entry of the NumPy service's `transcription_segments` list, as
built by `_transcribe_audio_chunk`. -/
structure RTSegment where
  text : List Char
  timestamp : Nat
  confidence : ℚ
  duration : ℚ
deriving Repr, DecidableEq

/-- The per-session dict created by `RealtimeAudioService.create_session`
(the `"final_transcription"` key is absent until
`_process_final_audio_chunk` sets it, hence an `Option`). -/
structure RTSession where
  created_at : Nat
  is_recording : Bool
  audio_buffer : AudioBuffer
  transcription_queue : List RTSegment
  full_transcription : List Char
  transcription_segments : List RTSegment
  last_transcription_time : Nat
  recording_start_time : Option Nat
  final_transcription : Option (List Char)
deriving Repr, DecidableEq

/-- Result dict of `RealtimeAudioService.process_audio_chunk`. -/
inductive ChunkResult where
  | notFoundError
  | notRecordingError
  | success (timestamp : Nat)
deriving Repr, DecidableEq

/-- `RealtimeAudioService`: configuration plus the `sessions` dict. -/
structure RealtimeAudioService where
  sample_rate : Nat
  chunk_duration : ℚ
  buffer_duration : ℚ
  sessions : String → Option RTSession

namespace RealtimeAudioService

/-- `self.sessions[session_id] = s` on a dict. -/
def update (svc : RealtimeAudioService) (session_id : String)
    (s : RTSession) : RealtimeAudioService :=
  { svc with
      sessions := fun k => if k = session_id then some s else svc.sessions k }

/-- `RealtimeAudioService.create_session`. -/
def create_session (svc : RealtimeAudioService) (session_id : String)
    (now : Nat) : RealtimeAudioService × String :=
  (svc.update session_id
    { created_at := now
      is_recording := false
      audio_buffer := AudioBuffer.init svc.sample_rate svc.buffer_duration
      transcription_queue := []
      full_transcription := []
      transcription_segments := []
      last_transcription_time := 0
      recording_start_time := none
      final_transcription := none }, session_id)

/-- `RealtimeAudioService.start_recording`. -/
def start_recording (svc : RealtimeAudioService) (session_id : String)
    (now : Nat) : RealtimeAudioService × Bool :=
  match svc.sessions session_id with
  | none => (svc, false)
  | some s =>
    (svc.update session_id
      { s with is_recording := true, recording_start_time := some now }, true)

/-- `RealtimeAudioService._transcribe_audio_chunk`: reads the last
`chunk_duration` seconds, skips windows shorter than
`sample_rate * 0.5` samples, hands the window to Whisper, and on
non-empty stripped text appends a segment, extends the running transcript
and enqueues the segment; an exception from the call is caught and
logged.  (Only called internally with a present id; an absent id is a
no-op here.) -/
def _transcribe_audio_chunk (tr : RTTranscriber) (svc : RealtimeAudioService)
    (session_id : String) (now : Nat) : RealtimeAudioService :=
  match svc.sessions session_id with
  | none => svc
  | some s =>
    let audio_data := s.audio_buffer.read_last_seconds svc.chunk_duration
    if natLtNatMulRat audio_data.length svc.sample_rate (mkRat 1 2) then
      svc
    else
      match tr audio_data with
      | .error _ => svc
      | .ok (text, confidence) =>
        if strip text ≠ [] then
          let segment : RTSegment :=
            { text := strip text
              timestamp := now
              confidence := confidence
              duration := mkRat audio_data.length svc.sample_rate }
          svc.update session_id
            { s with
                transcription_segments := s.transcription_segments ++ [segment]
                full_transcription :=
                  s.full_transcription ++ (' ' :: strip text)
                transcription_queue := s.transcription_queue ++ [segment] }
        else
          svc

/-- `RealtimeAudioService._process_final_audio_chunk`: reads the whole
`buffer_duration` window, skips it when shorter than half a second of
samples, transcribes it (`response_format="text"`, so the confidence part
of the oracle's answer is unused) and on non-empty stripped text sets
`final_transcription`; an exception is caught and logged. -/
def _process_final_audio_chunk (tr : RTTranscriber)
    (svc : RealtimeAudioService) (session_id : String) :
    RealtimeAudioService :=
  match svc.sessions session_id with
  | none => svc
  | some s =>
    let audio_data := s.audio_buffer.read_last_seconds svc.buffer_duration
    if natLtNatMulRat audio_data.length svc.sample_rate (mkRat 1 2) then
      svc
    else
      match tr audio_data with
      | .error _ => svc
      | .ok (text, _) =>
        if strip text ≠ [] then
          svc.update session_id { s with final_transcription := some (strip text) }
        else
          svc

/-- `RealtimeAudioService.stop_recording`: clears the recording flag and
then runs `_process_final_audio_chunk` synchronously, before returning. -/
def stop_recording (tr : RTTranscriber) (svc : RealtimeAudioService)
    (session_id : String) : RealtimeAudioService × Bool :=
  match svc.sessions session_id with
  | none => (svc, false)
  | some s =>
    let svc1 := svc.update session_id { s with is_recording := false }
    (_process_final_audio_chunk tr svc1 session_id, true)

/-- `RealtimeAudioService.process_audio_chunk`: an unknown id or a
non-recording session yields the respective error dict with the state
untouched; otherwise the chunk is written into the ring buffer and, when
`now - last_transcription_time >= chunk_duration`, a transcription pass
runs and the gate timestamp is updated. -/
def process_audio_chunk (tr : RTTranscriber) (svc : RealtimeAudioService)
    (session_id : String) (audio_data : List Int) (now : Nat) :
    RealtimeAudioService × ChunkResult :=
  match svc.sessions session_id with
  | none => (svc, .notFoundError)
  | some s =>
    if ¬ s.is_recording then
      (svc, .notRecordingError)
    else
      let svc1 := svc.update session_id
        { s with audio_buffer := s.audio_buffer.write audio_data }
      if ratLeNat svc.chunk_duration (now - s.last_transcription_time) then
        let svc2 := _transcribe_audio_chunk tr svc1 session_id now
        match svc2.sessions session_id with
        | none => (svc2, .success now)
        | some s2 =>
          (svc2.update session_id { s2 with last_transcription_time := now },
            .success now)
      else
        (svc1, .success now)

/-- `RealtimeAudioService.get_final_transcription`:
`session.get("final_transcription", full_transcription.strip())`. -/
def get_final_transcription (svc : RealtimeAudioService)
    (session_id : String) : Option (List Char) :=
  match svc.sessions session_id with
  | none => none
  | some s => some (s.final_transcription.getD (strip s.full_transcription))

end RealtimeAudioService

/-- `RealtimeTranscriptionManager.stop_recording`: on a `True` from the
service the `recording_stopped` response carries
`get_final_transcription` of the post-stop state. -/
def rt_manager_stop_recording (tr : RTTranscriber)
    (svc : RealtimeAudioService) (session_id : String) (now : Nat) :
    RealtimeAudioService × StopResponse :=
  let step := RealtimeAudioService.stop_recording tr svc session_id
  if step.2 then
    (step.1, .recording_stopped session_id
      (step.1.get_final_transcription session_id) now)
  else
    (step.1, .error)

/-! ## Traces of API calls against the basic service

Observation-point claims quantify over every state the HTTP surface can
reach, i.e. over arbitrary sequences of the service's public
operations. -/

/-- One public operation of `BasicRealtimeAudioService` (the payload of
the corresponding endpoint call). -/
inductive BasicOp where
  | create (session_id : String) (now : Nat)
  | start (session_id : String) (now : Nat)
  | stop (session_id : String) (now : Nat)
  | processAudio (session_id : String) (audio_data : List Nat) (now : Nat)
  | transcribeFile (session_id : String) (wav : List Nat) (now : Nat)
  | getLive (session_id : String)
  | cleanup (session_id : String)
deriving Repr, DecidableEq

namespace BasicRealtimeAudioService

/-- The state reached by one operation (responses discarded). -/
def runOp (tr : Transcriber) (svc : BasicRealtimeAudioService) :
    BasicOp → BasicRealtimeAudioService
  | .create session_id now => (svc.create_session session_id now).1
  | .start session_id now => (svc.start_recording session_id now).1
  | .stop session_id now => (svc.stop_recording session_id now).1
  | .processAudio session_id audio_data now =>
      (process_audio_data tr svc session_id audio_data now).1
  | .transcribeFile session_id wav now =>
      (transcribe_audio_file tr svc session_id wav now).1
  | .getLive session_id => (svc.get_live_transcription session_id).1
  | .cleanup session_id => (svc.cleanup_session session_id).1

/-- The state reached by a sequence of operations. -/
def run (tr : Transcriber) (svc : BasicRealtimeAudioService) :
    List BasicOp → BasicRealtimeAudioService
  | [] => svc
  | op :: ops => run tr (svc.runOp tr op) ops

/-- The `new_segments` lists that the poller `psid` observes when `op`
runs against `svc` (empty unless `op` is `psid` polling its session). -/
def pollOut (svc : BasicRealtimeAudioService) (op : BasicOp) (psid : String) :
    List (List Segment) :=
  match op with
  | .getLive session_id =>
    if session_id = psid then
      match (svc.get_live_transcription session_id).2 with
      | some r => [r.new_segments]
      | none => []
    else []
  | .create _ _ => []
  | .start _ _ => []
  | .stop _ _ => []
  | .processAudio _ _ _ => []
  | .transcribeFile _ _ _ => []
  | .cleanup _ => []

/-- Like `run`, additionally collecting the `new_segments` list of every
`get_live_transcription` poll that the poller `psid` performs on its own
session. -/
def runCollect (tr : Transcriber) (psid : String)
    (svc : BasicRealtimeAudioService) :
    List BasicOp → BasicRealtimeAudioService × List (List Segment)
  | [] => (svc, [])
  | op :: ops =>
    let rest := runCollect tr psid (svc.runOp tr op) ops
    (rest.1, pollOut svc op psid ++ rest.2)

end BasicRealtimeAudioService

/-! ## Derived notions used by the claims -/

/-- `" ".join(texts)` — the spec's transcript-derivation form. -/
def joinWithSpace : List (List Char) → List Char
  | [] => []
  | [t] => t
  | t :: t2 :: ts => t ++ ' ' :: joinWithSpace (t2 :: ts)

/-- A string with neither leading nor trailing whitespace. -/
def Trimmed (t : List Char) : Prop := trimL t = t ∧ trimR t = t

/-- The exact shape `full_transcription` has after a sequence of segment
appends: each text preceded by one space. -/
def glue (texts : List (List Char)) : List Char :=
  (texts.map (fun t => ' ' :: t)).join

/-- The transcript-derivation invariant of one basic session: the running
transcript is the glue of the segment texts, and every logged text is
non-empty and trimmed. -/
def TranscriptInv (s : BasicAudioSession) : Prop :=
  s.full_transcription = glue (s.transcription_segments.map Segment.text) ∧
  ∀ seg ∈ s.transcription_segments, seg.text ≠ [] ∧ Trimmed seg.text

/-- `TranscriptInv` for every stored session. -/
def ServiceInv (svc : BasicRealtimeAudioService) : Prop :=
  ∀ sid s, svc.sessions sid = some s → TranscriptInv s

/-- Delivery-queue bookkeeping: the segments already delivered to the
poller followed by the still-queued segments are exactly the segment
log. -/
def QueueInv (s : BasicAudioSession) (delivered : List Segment) : Prop :=
  delivered ++ s.transcription_queue = s.transcription_segments

/-- Operations that create or destroy the session `sid` itself (excluded
from an "interleaving of appends and polls" on that session). -/
def touchesLifecycle (op : BasicOp) (sid : String) : Bool :=
  match op with
  | .create session_id _ => decide (session_id = sid)
  | .cleanup session_id => decide (session_id = sid)
  | _ => false

/-- The session id an operation addresses. -/
def BasicOp.sid : BasicOp → String
  | .create session_id _ => session_id
  | .start session_id _ => session_id
  | .stop session_id _ => session_id
  | .processAudio session_id _ _ => session_id
  | .transcribeFile session_id _ _ => session_id
  | .getLive session_id => session_id
  | .cleanup session_id => session_id

/-- With a transcriber that always fails, no session ever carries a
segment or transcript text. -/
def EmptyTranscripts (svc : BasicRealtimeAudioService) : Prop :=
  ∀ sid s, svc.sessions sid = some s →
    s.transcription_segments = [] ∧ s.full_transcription = []

/-! ## Concrete fixtures for evaluations -/

/-- A transcriber stub that always answers `"hi"` with confidence 1. -/
def trHi : Transcriber := fun _ => .ok (['h', 'i'], 1)

/-- A transcriber stub that always fails. -/
def trFail : Transcriber := fun _ => .error ['x']

/-- An always-`"hi"` stub for the NumPy variant. -/
def rtHi : RTTranscriber := fun _ => .ok (['h', 'i'], 1)

/-- A fresh service holding one just-created session `"s1"`. -/
def svcS1 : BasicRealtimeAudioService :=
  (BasicRealtimeAudioService.empty.create_session "s1" 0).1

/-- `"s1"` created, recording started, and 4 bytes of audio buffered
(below the 3-second flush threshold, so still unconsumed). -/
def svcS1Buffered : BasicRealtimeAudioService :=
  (BasicRealtimeAudioService.process_audio_data trHi
    ((svcS1.start_recording "s1" 1).1) "s1" [9, 9, 9, 9] 2).1

/-- The manager wrapping `svcS1Buffered`. -/
def mgrS1Buffered : BasicRealtimeTranscriptionManager :=
  { audio_service := svcS1Buffered, active_sessions := ["s1"] }

/-- The end-to-end scenario of spec section 8: create, start, stream the
given chunks, stop. -/
def scenarioOps (sid : String) (chunks : List (List Nat × Nat))
    (now0 now1 now2 : Nat) : List BasicOp :=
  .create sid now0 :: .start sid now1 ::
    (chunks.map (fun c => BasicOp.processAudio sid c.1 c.2) ++
      [.stop sid now2])

/-- A two-operation trace: one successful transcription, one poll. -/
def opsWit : List BasicOp :=
  [.create "a" 0, .transcribeFile "a" [1] 1]

/-- The session state `opsWit` produces under `trHi`. -/
def sWit : BasicAudioSession :=
  (BasicAudioSession.init "a" 0).add_transcription_segment ['h', 'i'] 1 1

/-- A NumPy-variant service with a tiny configuration (2 Hz sampling,
3-second chunk and buffer windows) so that evaluations stay small; the
state-machine logic is uniform in the configuration. -/
def rtSvc0 : RealtimeAudioService :=
  { sample_rate := 2, chunk_duration := 3, buffer_duration := 3,
    sessions := fun _ => none }

/-- `rtSvc0` with one just-created (idle) session `"s1"`. -/
def rtSvcS1 : RealtimeAudioService := (rtSvc0.create_session "s1" 0).1

/-- `rtSvcS1` with recording started. -/
def rtSvcRec : RealtimeAudioService := (rtSvcS1.start_recording "s1" 1).1

/-- `rtSvcRec` after one 2-sample chunk (one second of audio, below the
chunk-interval gate, so still untranscribed in the ring buffer). -/
def rtSvcBuf : RealtimeAudioService :=
  (rtSvcRec.process_audio_chunk rtHi "s1" [7, 8] 2).1

/-- The session record `rtSvcS1` stores. -/
def rtSessIdle : RTSession :=
  { created_at := 0, is_recording := false, audio_buffer := AudioBuffer.init 2 3,
    transcription_queue := [], full_transcription := [],
    transcription_segments := [], last_transcription_time := 0,
    recording_start_time := none, final_transcription := none }

/-- The session record `rtSvcBuf` stores. -/
def rtSessBuf : RTSession :=
  { rtSessIdle with
      is_recording := true
      audio_buffer := (AudioBuffer.init 2 3).write [7, 8]
      recording_start_time := some 1 }

/-- Decode a 2-byte little-endian field at `off`. -/
def readLE2 (l : List Nat) (off : Nat) : Nat :=
  l.getD off 0 + 256 * l.getD (off + 1) 0

/-- Decode a 4-byte little-endian field at `off`. -/
def readLE4 (l : List Nat) (off : Nat) : Nat :=
  l.getD off 0 + 256 * l.getD (off + 1) 0 + 65536 * l.getD (off + 2) 0 +
    16777216 * l.getD (off + 3) 0

/-! ## Bridge lemmas for the exact-float helpers -/

lemma floorNatMulRat_eq (n : Nat) (q : ℚ) (hq : 0 ≤ q) :
    (floorNatMulRat n q : ℤ) = ⌊(n : ℚ) * q⌋ := by
  have hnum : 0 ≤ q.num := Rat.num_nonneg.mpr hq
  have h1 : (n : ℚ) * q = (((n : ℤ) * q.num : ℤ) : ℚ) / ((q.den : ℕ) : ℚ) := by
    conv_lhs => rw [← Rat.num_div_den q]
    push_cast
    ring
  rw [h1, Rat.floor_intCast_div_natCast]
  have h2 : ((n : Int) * q.num).toNat = (n : Int) * q.num :=
    Int.toNat_of_nonneg (by positivity)
  unfold floorNatMulRat
  conv_rhs => rw [← h2]
  exact Int.ofNat_div _ _

lemma ratLeNat_iff (q : ℚ) (n : Nat) : ratLeNat q n = true ↔ q ≤ (n : ℚ) := by
  rw [ratLeNat, decide_eq_true_iff, Rat.le_def]
  simp

lemma natLtNatMulRat_iff (m n : Nat) (q : ℚ) :
    natLtNatMulRat m n q = true ↔ (m : ℚ) < (n : ℚ) * q := by
  rw [natLtNatMulRat, decide_eq_true_iff]
  have h1 : (n : ℚ) * q = (((n : ℤ) * q.num : ℤ) : ℚ) / ((q.den : ℕ) : ℚ) := by
    conv_lhs => rw [← Rat.num_div_den q]
    push_cast
    ring
  rw [h1, lt_div_iff (by positivity)]
  constructor
  · intro h
    exact_mod_cast h
  · intro h
    exact_mod_cast h

lemma divGeRat_iff (m d : Nat) (q : ℚ) (hd : 0 < d) :
    divGeRat m d q = true ↔ q ≤ (m : ℚ) / (d : ℚ) := by
  rw [divGeRat, decide_eq_true_iff]
  conv_rhs => rw [← Rat.num_div_den q]
  rw [div_le_div_iff (by positivity) (by positivity : (0 : ℚ) < (d : ℚ))]
  constructor
  · intro h
    exact_mod_cast h
  · intro h
    exact_mod_cast h

/-! ## Lemmas about `str.strip` and space-joined transcripts -/

lemma dropWhile_idem (p : Char → Bool) (l : List Char) :
    (l.dropWhile p).dropWhile p = l.dropWhile p := by
  induction l with
  | nil => rfl
  | cons a l ih => by_cases h : p a <;> simp [List.dropWhile_cons, h, ih]

lemma trimL_cons_not_space {c : Char} (t : List Char) (h : isSpace c = false) :
    trimL (c :: t) = c :: t := by
  simp [trimL, List.dropWhile_cons, h]

lemma not_space_of_trimL_fixed {c : Char} {t : List Char}
    (h : trimL (c :: t) = c :: t) : isSpace c = false := by
  by_contra hc
  rw [Bool.not_eq_false] at hc
  rw [trimL, List.dropWhile_cons, if_pos hc] at h
  have := (List.dropWhile_suffix (l := t) isSpace).length_le
  rw [h] at this
  simp at this

lemma trimL_append_left {t : List Char} (u : List Char) (ht : trimL t = t)
    (hne : t ≠ []) : trimL (t ++ u) = t ++ u := by
  cases t with
  | nil => exact absurd rfl hne
  | cons c t =>
    have hc := not_space_of_trimL_fixed ht
    simp only [List.cons_append]
    exact trimL_cons_not_space _ hc

lemma trimR_reverse_char (l : List Char) :
    trimR l = l ↔ trimL l.reverse = l.reverse := by
  unfold trimR trimL
  constructor
  · intro h
    conv_rhs => rw [← h]
    rw [List.reverse_reverse]
  · intro h
    rw [h, List.reverse_reverse]

lemma trimL_idem (l : List Char) : trimL (trimL l) = trimL l :=
  dropWhile_idem isSpace l

lemma trimR_idem (l : List Char) : trimR (trimR l) = trimR l := by
  unfold trimR
  rw [List.reverse_reverse, dropWhile_idem]

lemma trimL_fixed_of_prefix {l1 l2 : List Char} (h : l1 <+: l2)
    (h2 : trimL l2 = l2) : trimL l1 = l1 := by
  cases l1 with
  | nil => rfl
  | cons c t =>
    obtain ⟨u, hu⟩ := h
    rw [← hu] at h2
    simp only [List.cons_append] at h2
    exact trimL_cons_not_space _ (not_space_of_trimL_fixed h2)

lemma trimmed_strip (x : List Char) : Trimmed (strip x) := by
  constructor
  · have hpre : trimR (trimL x) <+: trimL x := by
      unfold trimR
      have h1 := List.dropWhile_suffix (l := (trimL x).reverse) isSpace
      have h2 := List.reverse_prefix.mpr h1
      rwa [List.reverse_reverse] at h2
    exact trimL_fixed_of_prefix hpre (trimL_idem x)
  · exact trimR_idem (trimL x)

lemma strip_idem (x : List Char) : strip (strip x) = strip x := by
  have h1 := (trimmed_strip x).1
  show trimR (trimL (strip x)) = strip x
  rw [h1]
  exact (trimmed_strip x).2

lemma glue_eq_cons_join (texts : List (List Char)) (h : texts ≠ []) :
    glue texts = ' ' :: joinWithSpace texts := by
  induction texts with
  | nil => exact absurd rfl h
  | cons t ts ih =>
    cases ts with
    | nil => simp [glue, joinWithSpace]
    | cons t2 ts2 =>
      have h2 := ih (by simp)
      rw [joinWithSpace]
      simp only [glue, List.map_cons, List.join_cons] at h2 ⊢
      rw [h2]
      simp

lemma trimmed_joinWithSpace (texts : List (List Char)) (hne : texts ≠ [])
    (h : ∀ t ∈ texts, t ≠ [] ∧ Trimmed t) :
    joinWithSpace texts ≠ [] ∧ Trimmed (joinWithSpace texts) := by
  induction texts with
  | nil => exact absurd rfl hne
  | cons t ts ih =>
    cases ts with
    | nil =>
      rw [joinWithSpace]
      exact ⟨(h t (by simp)).1, (h t (by simp)).2⟩
    | cons t2 ts2 =>
      obtain ⟨hw', htw'⟩ :=
        ih (by simp) (fun u hu => h u (List.mem_cons_of_mem _ hu))
      obtain ⟨ht, htL, htR⟩ : t ≠ [] ∧ trimL t = t ∧ trimR t = t := by
        obtain ⟨a, b, c⟩ := h t (by simp)
        exact ⟨a, b, c⟩
      rw [joinWithSpace]
      refine ⟨by simp [ht], ?_, ?_⟩
      · exact trimL_append_left _ htL ht
      · rw [trimR_reverse_char]
        rw [List.reverse_append, List.reverse_cons]
        rw [List.append_assoc]
        refine trimL_append_left _ ?_ ?_
        · exact (trimR_reverse_char _).mp htw'.2
        · simpa using hw'

lemma strip_glue (texts : List (List Char))
    (h : ∀ t ∈ texts, t ≠ [] ∧ Trimmed t) :
    strip (glue texts) = joinWithSpace texts := by
  cases texts with
  | nil => rfl
  | cons t ts =>
    obtain ⟨hw, hwL, hwR⟩ :
        joinWithSpace (t :: ts) ≠ [] ∧
          trimL (joinWithSpace (t :: ts)) = joinWithSpace (t :: ts) ∧
          trimR (joinWithSpace (t :: ts)) = joinWithSpace (t :: ts) := by
      obtain ⟨a, b, c⟩ := trimmed_joinWithSpace (t :: ts) (by simp) h
      exact ⟨a, b, c⟩
    rw [glue_eq_cons_join _ (by simp)]
    show trimR (trimL (' ' :: joinWithSpace (t :: ts))) = joinWithSpace (t :: ts)
    rw [show trimL (' ' :: joinWithSpace (t :: ts)) =
          trimL (joinWithSpace (t :: ts)) by
      simp [trimL, List.dropWhile_cons, isSpace]]
    rw [hwL, hwR]

/-! ## Invariant preservation over the basic service -/


namespace BasicRealtimeAudioService

lemma update_lookup (svc : BasicRealtimeAudioService) (sid sid' : String)
    (s : BasicAudioSession) :
    (svc.update sid s).sessions sid' =
      if sid' = sid then some s else svc.sessions sid' := rfl

lemma update_self (svc : BasicRealtimeAudioService) (sid : String)
    (s : BasicAudioSession) : (svc.update sid s).sessions sid = some s := by
  simp [update]

lemma update_other (svc : BasicRealtimeAudioService) {sid sid' : String}
    (s : BasicAudioSession) (h : sid' ≠ sid) :
    (svc.update sid s).sessions sid' = svc.sessions sid' := by
  simp [update, h]

lemma erase_other (svc : BasicRealtimeAudioService) {sid sid' : String}
    (h : sid' ≠ sid) : (svc.erase sid).sessions sid' = svc.sessions sid' := by
  simp [erase, h]

end BasicRealtimeAudioService

lemma transcriptInv_init (sid : String) (now : Nat) :
    TranscriptInv (BasicAudioSession.init sid now) := by
  constructor
  · rfl
  · intro seg hseg
    simp [BasicAudioSession.init] at hseg

lemma transcriptInv_start {s : BasicAudioSession} (hs : TranscriptInv s)
    (now : Nat) : TranscriptInv (s.start_recording now) := hs

lemma transcriptInv_stop {s : BasicAudioSession} (hs : TranscriptInv s)
    (now : Nat) : TranscriptInv (s.stop_recording now) := hs

lemma transcriptInv_addAudio {s : BasicAudioSession} (hs : TranscriptInv s)
    (data : List Nat) : TranscriptInv (s.add_audio_data data) := hs

lemma transcriptInv_clear {s : BasicAudioSession} (hs : TranscriptInv s) :
    TranscriptInv s.clear_audio_buffer := hs

lemma transcriptInv_dropQueue {s : BasicAudioSession} (hs : TranscriptInv s) :
    TranscriptInv { s with transcription_queue := [] } := hs

lemma glue_append (a b : List (List Char)) : glue (a ++ b) = glue a ++ glue b := by
  simp [glue]

lemma transcriptInv_add {s : BasicAudioSession} (hs : TranscriptInv s)
    {text : List Char} (confidence : ℚ) (now : Nat) (h : strip text ≠ []) :
    TranscriptInv (s.add_transcription_segment text confidence now) := by
  obtain ⟨h1, h2⟩ := hs
  constructor
  · simp only [BasicAudioSession.add_transcription_segment, List.map_append,
      glue_append, h1]
    simp [glue]
  · intro seg hseg
    simp only [BasicAudioSession.add_transcription_segment, List.mem_append,
      List.mem_singleton] at hseg
    cases hseg with
    | inl hm => exact h2 seg hm
    | inr hm =>
      subst hm
      exact ⟨h, trimmed_strip text⟩

namespace BasicRealtimeAudioService

lemma serviceInv_update {svc : BasicRealtimeAudioService}
    (h : ServiceInv svc) {s : BasicAudioSession} (hs : TranscriptInv s)
    (sid : String) : ServiceInv (svc.update sid s) := by
  intro sid' s' h'
  rw [update_lookup] at h'
  by_cases hE : sid' = sid
  · rw [if_pos hE] at h'
    cases h'
    exact hs
  · rw [if_neg hE] at h'
    exact h sid' s' h'

lemma serviceInv_erase {svc : BasicRealtimeAudioService}
    (h : ServiceInv svc) (sid : String) : ServiceInv (svc.erase sid) := by
  intro sid' s' h'
  unfold erase at h'
  by_cases hE : sid' = sid
  · simp [hE] at h'
  · simp [hE] at h'
    exact h sid' s' h'

lemma serviceInv_transcribe {svc : BasicRealtimeAudioService}
    (h : ServiceInv svc) (tr : Transcriber) (sid : String) (wav : List Nat)
    (now : Nat) : ServiceInv (transcribe_audio_file tr svc sid wav now).1 := by
  unfold transcribe_audio_file
  cases hl : svc.sessions sid with
  | none => exact h
  | some s =>
    cases htr : tr wav with
    | error e => exact h
    | ok p =>
      obtain ⟨text, confidence⟩ := p
      dsimp only
      by_cases hs : strip text ≠ []
      · rw [if_pos hs]
        exact serviceInv_update h
          (transcriptInv_add (h sid s hl) confidence now
            (by rwa [strip_idem])) sid
      · rw [if_neg hs]
        exact h

end BasicRealtimeAudioService


namespace BasicRealtimeAudioService

lemma serviceInv_process {svc : BasicRealtimeAudioService}
    (h : ServiceInv svc) (tr : Transcriber) (sid : String) (data : List Nat)
    (now : Nat) : ServiceInv (process_audio_data tr svc sid data now).1 := by
  unfold process_audio_data
  cases hl : svc.sessions sid with
  | none => exact h
  | some s =>
    dsimp only
    have h1 : ServiceInv (svc.update sid (s.add_audio_data data)) :=
      serviceInv_update h (transcriptInv_addAudio (h sid s hl) data) sid
    by_cases hd : divGeRat (s.add_audio_data data).audio_buffer.length (16000 * 2) 3
    · rw [if_pos hd]
      have h2 := serviceInv_transcribe h1 tr sid
        (_create_temp_wav_from_buffer (s.add_audio_data data).audio_buffer) now
      cases h3 : (transcribe_audio_file tr (svc.update sid (s.add_audio_data data)) sid
          (_create_temp_wav_from_buffer (s.add_audio_data data).audio_buffer) now).1.sessions sid with
      | none => simpa [h3] using h2
      | some s2 =>
        simp only [h3]
        exact serviceInv_update h2 (transcriptInv_clear (h2 sid s2 h3)) sid
    · rw [if_neg hd]
      exact h1

lemma serviceInv_runOp {svc : BasicRealtimeAudioService}
    (h : ServiceInv svc) (tr : Transcriber) (op : BasicOp) :
    ServiceInv (svc.runOp tr op) := by
  cases op with
  | create session_id now =>
    exact serviceInv_update h (transcriptInv_init session_id now) session_id
  | start session_id now =>
    simp only [runOp]
    unfold start_recording
    cases hl : svc.sessions session_id with
    | none => exact h
    | some s =>
      exact serviceInv_update h (transcriptInv_start (h _ s hl) now) session_id
  | stop session_id now =>
    simp only [runOp]
    unfold stop_recording
    cases hl : svc.sessions session_id with
    | none => exact h
    | some s =>
      exact serviceInv_update h (transcriptInv_stop (h _ s hl) now) session_id
  | processAudio session_id data now => exact serviceInv_process h tr session_id data now
  | transcribeFile session_id wav now => exact serviceInv_transcribe h tr session_id wav now
  | getLive session_id =>
    simp only [runOp]
    unfold get_live_transcription
    cases hl : svc.sessions session_id with
    | none => exact h
    | some s =>
      exact serviceInv_update h (transcriptInv_dropQueue (h _ s hl)) session_id
  | cleanup session_id =>
    simp only [runOp]
    unfold cleanup_session
    cases hl : svc.sessions session_id with
    | none => exact h
    | some s => exact serviceInv_erase h session_id

lemma serviceInv_run {svc : BasicRealtimeAudioService}
    (h : ServiceInv svc) (tr : Transcriber) (ops : List BasicOp) :
    ServiceInv (svc.run tr ops) := by
  induction ops generalizing svc with
  | nil => exact h
  | cons op ops ih => exact ih (serviceInv_runOp h tr op)

lemma serviceInv_empty : ServiceInv BasicRealtimeAudioService.empty := by
  intro sid s h
  simp [empty] at h

end BasicRealtimeAudioService


/-! ## Helper lemmas for the NumPy-variant service -/

namespace RealtimeAudioService

lemma rt_update_self (svc : RealtimeAudioService) (sid : String)
    (s : RTSession) : (svc.update sid s).sessions sid = some s := by
  simp [update]

lemma rt_update_other (svc : RealtimeAudioService) {sid sid₀ : String}
    (s : RTSession) (h : sid₀ ≠ sid) :
    (svc.update sid s).sessions sid₀ = svc.sessions sid₀ := by
  simp [update, h]

lemma rt_update_config (svc : RealtimeAudioService) (sid : String)
    (s : RTSession) : (svc.update sid s).sample_rate = svc.sample_rate ∧
      (svc.update sid s).chunk_duration = svc.chunk_duration ∧
      (svc.update sid s).buffer_duration = svc.buffer_duration :=
  ⟨rfl, rfl, rfl⟩

/-- `_transcribe_audio_chunk` never touches the target session's ring
buffer or recording flag. -/
lemma transcribe_chunk_frame (tr : RTTranscriber)
    (svc : RealtimeAudioService) (sid : String) (s : RTSession) (now : Nat)
    (h : svc.sessions sid = some s) :
    ∃ s', (_transcribe_audio_chunk tr svc sid now).sessions sid = some s' ∧
      s'.audio_buffer = s.audio_buffer ∧ s'.is_recording = s.is_recording := by
  unfold _transcribe_audio_chunk
  rw [h]
  dsimp only
  by_cases hlen : natLtNatMulRat
      (s.audio_buffer.read_last_seconds svc.chunk_duration).length
      svc.sample_rate (mkRat 1 2) = true
  · rw [if_pos hlen]
    exact ⟨s, h, rfl, rfl⟩
  · rw [if_neg hlen]
    cases htr : tr (s.audio_buffer.read_last_seconds svc.chunk_duration) with
    | error e => exact ⟨s, h, rfl, rfl⟩
    | ok p =>
      obtain ⟨text, confidence⟩ := p
      dsimp only
      by_cases hne : strip text ≠ []
      · rw [if_pos hne]
        exact ⟨_, rt_update_self .., rfl, rfl⟩
      · rw [if_neg hne]
        exact ⟨s, h, rfl, rfl⟩

end RealtimeAudioService

lemma erase_self (svc : BasicRealtimeAudioService) (sid : String) :
    (svc.erase sid).sessions sid = none := by
  simp [BasicRealtimeAudioService.erase]

/-! ## The claims -/

/-- **C1.** Claimed: after any write sequence totalling more than the
capacity — including one where a write ends exactly at the capacity
boundary — `read_last_seconds (capacity / sample_rate)` returns exactly
the most recent `capacity` samples, oldest first.  The code violates
this: after writes `[1,2]`, `[3,4]`, `[5]` into a 4-sample buffer the
second write ends exactly at the boundary, the cursor wraps to 0 without
`is_full` being set, and the subsequent read returns `[5]` instead of the
four most recent samples `[2,3,4,5]`. -/
theorem c1_boundary_write_loses_history :
    c1Buffer.read_last_seconds 1 = [5] ∧
    c1Buffer.read_last_seconds 1 ≠ [2, 3, 4, 5] ∧
    c1Buffer.is_full = false ∧
    c1Buffer.write_index = 1 ∧
    c1Buffer.buffer = [5, 2, 3, 4] := by
  decide

/-- **C3 (counterexample).** A `stop()` before any `start()` is not
rejected: it returns success (`True`, surfaced as `recording_stopped`)
and modifies the session, setting `recording_end_time` from `None` to
the stop instant.  A second `start()` in a row also returns success. -/
theorem c3_invalid_transitions_not_rejected :
    svcS1.sessions "s1" = some (BasicAudioSession.init "s1" 0) ∧
    (BasicAudioSession.init "s1" 0).recording_end_time = none ∧
    (svcS1.stop_recording "s1" 5).2 = true ∧
    ((svcS1.stop_recording "s1" 5).1.sessions "s1").map
        (fun s => s.recording_end_time) = some (some 5) ∧
    (svcS1.start_recording "s1" 1).2 = true ∧
    (((svcS1.start_recording "s1" 1).1).start_recording "s1" 2).2 = true := by
  decide

/-- **C3 (amended).** What the code actually does: on an existing session
`stop()` always succeeds — also before any `start()` — and records the
stop instant; `start()` succeeds twice in a row; no `InvalidState` error
exists.  Only an unknown session id is rejected, by returning `False`
with the service unchanged. -/
theorem c3_no_invalid_state_rejection (svc : BasicRealtimeAudioService)
    (sid : String) (s : BasicAudioSession) (now1 now2 : Nat)
    (h : svc.sessions sid = some s) :
    (svc.stop_recording sid now1).2 = true ∧
    (svc.stop_recording sid now1).1.sessions sid =
      some (s.stop_recording now1) ∧
    (svc.start_recording sid now1).2 = true ∧
    ((svc.start_recording sid now1).1.start_recording sid now2).2 = true ∧
    (∀ sid₀, svc.sessions sid₀ = none →
      (svc.start_recording sid₀ now1).2 = false ∧
      (svc.stop_recording sid₀ now1).2 = false ∧
      (∀ k, (svc.start_recording sid₀ now1).1.sessions k = svc.sessions k) ∧
      (∀ k, (svc.stop_recording sid₀ now1).1.sessions k = svc.sessions k)) := by
  unfold BasicRealtimeAudioService.stop_recording BasicRealtimeAudioService.start_recording
  rw [h]
  refine ⟨rfl, ?_, ?_, ?_, ?_⟩
  · exact BasicRealtimeAudioService.update_self ..
  · rfl
  · rw [BasicRealtimeAudioService.update_self]
  · intro sid₀ h₀
    rw [h₀]
    exact ⟨rfl, rfl, fun k => rfl, fun k => rfl⟩

theorem c3_no_invalid_state_rejection_witness :
    svcS1.sessions "s1" = some (BasicAudioSession.init "s1" 0) ∧
    (svcS1.stop_recording "s1" 5).2 = true :=
  ⟨by decide, (c3_no_invalid_state_rejection svcS1 "s1"
    (BasicAudioSession.init "s1" 0) 5 6 (by decide)).1⟩

/-- **C2 (counterexample).** In the service wired to the HTTP interface,
`stop()` makes no final transcription pass: with `"s1"` recording and 4
bytes of audio still buffered (untranscribed), and a transcriber that
would answer `"hi"` for any input, the `recording_stopped` response
carries `final_transcription = ""` — the empty accumulated transcript,
not the transcript of the remaining buffered window — and the segment
log stays empty. -/
theorem c2_basic_stop_skips_final_pass :
    (mgrS1Buffered.stop_recording "s1" 3).2 =
      .recording_stopped "s1" (some []) 3 ∧
    (svcS1Buffered.sessions "s1").map (fun s => s.audio_buffer) =
      some [9, 9, 9, 9] ∧
    (svcS1Buffered.sessions "s1").map (fun s => s.transcription_segments) =
      some [] ∧
    trHi (BasicRealtimeAudioService._create_temp_wav_from_buffer
      [9, 9, 9, 9]) = .ok (['h', 'i'], 1) ∧
    (some [] : Option (List Char)) ≠ some ['h', 'i'] := by
  refine ⟨by decide, by decide, by decide, rfl, by decide⟩

/-- **C2 (amended).** In `RealtimeAudioService` the claim holds: for a
session whose whole buffered window (`buffer_duration` seconds) is at
least half a second of samples and transcribes to non-empty stripped
text, `stop_recording` runs `_process_final_audio_chunk` synchronously
before returning, the stopped session carries
`final_transcription = text.strip()`, and the manager's
`recording_stopped` response carries exactly that final transcription. -/
theorem c2_rt_stop_runs_final_pass (tr : RTTranscriber)
    (svc : RealtimeAudioService) (sid : String) (s : RTSession) (now : Nat)
    (text : List Char) (confidence : ℚ)
    (h : svc.sessions sid = some s)
    (hlen : natLtNatMulRat
      (s.audio_buffer.read_last_seconds svc.buffer_duration).length
      svc.sample_rate (mkRat 1 2) = false)
    (htr : tr (s.audio_buffer.read_last_seconds svc.buffer_duration) =
      .ok (text, confidence))
    (hne : strip text ≠ []) :
    (RealtimeAudioService.stop_recording tr svc sid).2 = true ∧
    (∃ s', (RealtimeAudioService.stop_recording tr svc sid).1.sessions sid =
        some s' ∧
      s'.is_recording = false ∧
      s'.final_transcription = some (strip text)) ∧
    (RealtimeAudioService.stop_recording tr svc sid).1.get_final_transcription
      sid = some (strip text) ∧
    rt_manager_stop_recording tr svc sid now =
      ((RealtimeAudioService.stop_recording tr svc sid).1,
        .recording_stopped sid (some (strip text)) now) := by
  have hfin : RealtimeAudioService._process_final_audio_chunk tr
      (svc.update sid { s with is_recording := false }) sid =
      (svc.update sid { s with is_recording := false }).update sid
        { s with is_recording := false,
                 final_transcription := some (strip text) } := by
    unfold RealtimeAudioService._process_final_audio_chunk
    rw [RealtimeAudioService.rt_update_self]
    dsimp only
    have hlen' : natLtNatMulRat
        ((({ s with is_recording := false } : RTSession)).audio_buffer.read_last_seconds
          (svc.update sid { s with is_recording := false }).buffer_duration).length
        (svc.update sid { s with is_recording := false }).sample_rate
        (mkRat 1 2) = false := hlen
    rw [hlen']
    have htr' : tr ((({ s with is_recording := false } : RTSession)).audio_buffer.read_last_seconds
        (svc.update sid { s with is_recording := false }).buffer_duration) =
        .ok (text, confidence) := htr
    rw [if_neg (by simp), htr']
    dsimp only
    rw [if_pos hne]
  have hstop : RealtimeAudioService.stop_recording tr svc sid =
      ((svc.update sid { s with is_recording := false }).update sid
        { s with is_recording := false,
                 final_transcription := some (strip text) }, true) := by
    unfold RealtimeAudioService.stop_recording
    rw [h]
    dsimp only
    rw [hfin]
  refine ⟨by rw [hstop], ?_, ?_, ?_⟩
  · rw [hstop]
    exact ⟨_, RealtimeAudioService.rt_update_self .., rfl, rfl⟩
  · unfold RealtimeAudioService.get_final_transcription
    rw [hstop]
    rw [RealtimeAudioService.rt_update_self]
    simp [Option.getD]
  · unfold rt_manager_stop_recording
    rw [hstop]
    dsimp only
    unfold RealtimeAudioService.get_final_transcription
    rw [RealtimeAudioService.rt_update_self]
    simp [Option.getD]

theorem c2_rt_stop_runs_final_pass_witness :
    rtSvcBuf.sessions "s1" = some rtSessBuf ∧
    natLtNatMulRat
      (rtSessBuf.audio_buffer.read_last_seconds rtSvcBuf.buffer_duration).length
      rtSvcBuf.sample_rate (mkRat 1 2) = false ∧
    rtHi (rtSessBuf.audio_buffer.read_last_seconds rtSvcBuf.buffer_duration) =
      .ok (['h', 'i'], 1) ∧
    strip ['h', 'i'] ≠ [] ∧
    (RealtimeAudioService.stop_recording rtHi rtSvcBuf "s1").2 = true :=
  ⟨by decide, by decide, rfl, by decide,
    (c2_rt_stop_runs_final_pass rtHi rtSvcBuf "s1" rtSessBuf 9 ['h', 'i'] 1
      (by decide) (by decide) rfl (by decide)).1⟩

/-- **C6 (counterexample).** In the service wired to the HTTP interface,
a session that is not recording (`Idle`: just created, never started)
still accepts audio: `process_audio_data` appends the bytes to the
session buffer and reports `buffering` — it is not rejected and the
buffer is modified. -/
theorem c6_basic_accepts_audio_while_idle :
    (svcS1.sessions "s1").map (fun s => s.is_recording) = some false ∧
    (BasicRealtimeAudioService.process_audio_data trHi svcS1 "s1"
        [1, 2, 3] 7).2 = .buffering 3 ∧
    ((BasicRealtimeAudioService.process_audio_data trHi svcS1 "s1"
        [1, 2, 3] 7).1.sessions "s1").map (fun s => s.audio_buffer) =
      some [1, 2, 3] := by
  decide

/-- **C6 (amended).** In `RealtimeAudioService` the claim holds: a chunk
sent to a non-`Recording` session is rejected with the
`"Session not recording"` error and the whole service state — in
particular the session buffer — is untouched; a chunk sent to a
`Recording` session is written into the ring buffer and the
recording flag is unchanged; an unknown id yields the not-found error
with the state untouched. -/
theorem c6_rt_reject_when_not_recording (tr : RTTranscriber)
    (svc : RealtimeAudioService) (sid : String) (s : RTSession)
    (data : List Int) (now : Nat) (h : svc.sessions sid = some s) :
    (s.is_recording = false →
      RealtimeAudioService.process_audio_chunk tr svc sid data now =
        (svc, .notRecordingError)) ∧
    (s.is_recording = true →
      (RealtimeAudioService.process_audio_chunk tr svc sid data now).2 =
        .success now ∧
      ∃ s', (RealtimeAudioService.process_audio_chunk tr svc sid
          data now).1.sessions sid = some s' ∧
        s'.audio_buffer = s.audio_buffer.write data ∧
        s'.is_recording = true) ∧
    (∀ sid₀, svc.sessions sid₀ = none →
      RealtimeAudioService.process_audio_chunk tr svc sid₀ data now =
        (svc, .notFoundError)) := by
  refine ⟨?_, ?_, ?_⟩
  · intro hrec
    unfold RealtimeAudioService.process_audio_chunk
    rw [h]
    dsimp only
    rw [hrec]
    simp
  · intro hrec
    unfold RealtimeAudioService.process_audio_chunk
    rw [h]
    dsimp only
    rw [if_neg (by simp [hrec])]
    set s1 : RTSession := { s with audio_buffer := s.audio_buffer.write data }
      with hs1
    have hl1 : (svc.update sid s1).sessions sid = some s1 :=
      RealtimeAudioService.rt_update_self ..
    by_cases hg : ratLeNat svc.chunk_duration (now - s.last_transcription_time) = true
    · rw [if_pos hg]
      obtain ⟨s2, hl2, hbuf, hflag⟩ :=
        RealtimeAudioService.transcribe_chunk_frame tr (svc.update sid s1) sid s1 now hl1
      rw [hl2]
      refine ⟨rfl, ⟨{ s2 with last_transcription_time := now },
        RealtimeAudioService.rt_update_self .., ?_, ?_⟩⟩
      · exact hbuf
      · rw [show ({ s2 with last_transcription_time := now } :
            RTSession).is_recording = s2.is_recording from rfl, hflag]
        exact hrec
    · rw [if_neg hg]
      exact ⟨rfl, ⟨s1, hl1, rfl, hrec⟩⟩
  · intro sid₀ h₀
    unfold RealtimeAudioService.process_audio_chunk
    rw [h₀]

theorem c6_rt_reject_when_not_recording_witness :
    rtSvcS1.sessions "s1" = some rtSessIdle ∧
    rtSessIdle.is_recording = false ∧
    RealtimeAudioService.process_audio_chunk rtHi rtSvcS1 "s1" [5] 2 =
      (rtSvcS1, .notRecordingError) :=
  ⟨by decide, by decide,
    (c6_rt_reject_when_not_recording rtHi rtSvcS1 "s1" rtSessIdle [5] 2
      (by decide)).1 (by decide)⟩

/-- **C8.** The WAV container built for the transcription collaborator is
canonical 16 kHz mono 16-bit PCM with header fields exactly matching the
payload length: RIFF ChunkSize (offset 4) is `n + 36`, Subchunk2Size
(offset 40) is `n`, byte rate (offset 28) is
`sample_rate * channels * bits_per_sample / 8 = 32000`, block align
(offset 32) is 2, sample rate (offset 24) is 16000, channels (offset 22)
is 1, bits per sample (offset 34) is 16, and the 44-byte header is
followed by exactly the payload.  (The bound keeps Python
`int.to_bytes(4, 'little')` from overflowing.) -/
theorem c8_wav_header_fields (payload : List Nat)
    (h : payload.length + 36 < 4294967296) :
    readLE4 (BasicRealtimeAudioService._create_temp_wav_from_buffer payload) 4 =
      payload.length + 36 ∧
    readLE4 (BasicRealtimeAudioService._create_temp_wav_from_buffer payload) 40 =
      payload.length ∧
    readLE4 (BasicRealtimeAudioService._create_temp_wav_from_buffer payload) 28 =
      32000 ∧
    readLE2 (BasicRealtimeAudioService._create_temp_wav_from_buffer payload) 32 =
      2 ∧
    readLE4 (BasicRealtimeAudioService._create_temp_wav_from_buffer payload) 24 =
      16000 ∧
    readLE2 (BasicRealtimeAudioService._create_temp_wav_from_buffer payload) 22 =
      1 ∧
    readLE2 (BasicRealtimeAudioService._create_temp_wav_from_buffer payload) 34 =
      16 ∧
    (BasicRealtimeAudioService._create_temp_wav_from_buffer payload).length =
      44 + payload.length ∧
    (BasicRealtimeAudioService._create_temp_wav_from_buffer payload).drop 44 =
      payload := by
  refine ⟨?_, ?_, ?_, ?_, ?_, ?_, ?_, ?_, ?_⟩ <;>
    simp [BasicRealtimeAudioService._create_temp_wav_from_buffer,
      BasicRealtimeAudioService.le4, BasicRealtimeAudioService.le2,
      readLE4, readLE2, List.getD_cons_zero, List.getD_cons_succ] <;>
    omega

theorem c8_wav_header_fields_witness :
    ([5, 6] : List Nat).length + 36 < 4294967296 ∧
    readLE4 (BasicRealtimeAudioService._create_temp_wav_from_buffer [5, 6]) 4 = 38 :=
  ⟨by decide, (c8_wav_header_fields [5, 6] (by decide)).1⟩

/-- **C9.** Deleting a session twice is idempotent and never crashes: the
first `DELETE /audio/session/{id}` answers `"cleaned_up"` and removes the
session, the second answers `"not_found"`; and removing a nonexistent id
returns `False` rather than raising. -/
theorem c9_cleanup_idempotent (mgr : BasicRealtimeTranscriptionManager)
    (sid : String) (s : BasicAudioSession)
    (h : mgr.audio_service.sessions sid = some s) :
    (cleanup_audio_session mgr sid).2 = "cleaned_up" ∧
    (cleanup_audio_session mgr sid).1.audio_service.sessions sid = none ∧
    (cleanup_audio_session (cleanup_audio_session mgr sid).1 sid).2 =
      "not_found" ∧
    (∀ sid₀, mgr.audio_service.sessions sid₀ = none →
      (mgr.audio_service.cleanup_session sid₀).2 = false) := by
  have h1 : (cleanup_audio_session mgr sid).1.audio_service =
      mgr.audio_service.erase sid := by
    simp only [cleanup_audio_session,
      BasicRealtimeTranscriptionManager.cleanup_session,
      BasicRealtimeAudioService.cleanup_session, h]
  refine ⟨?_, ?_, ?_, ?_⟩
  · simp [cleanup_audio_session,
      BasicRealtimeTranscriptionManager.cleanup_session,
      BasicRealtimeAudioService.cleanup_session, h]
  · rw [h1]
    exact erase_self ..
  · conv_lhs =>
      rw [cleanup_audio_session, BasicRealtimeTranscriptionManager.cleanup_session,
        BasicRealtimeAudioService.cleanup_session, h1, erase_self]
    simp
  · intro sid₀ h₀
    simp [BasicRealtimeAudioService.cleanup_session, h₀]

theorem c9_cleanup_idempotent_witness :
    svcS1.sessions "s1" = some (BasicAudioSession.init "s1" 0) ∧
    (cleanup_audio_session
      { audio_service := svcS1, active_sessions := ["s1"] } "s1").2 =
      "cleaned_up" :=
  ⟨by decide, (c9_cleanup_idempotent
    { audio_service := svcS1, active_sessions := ["s1"] } "s1"
    (BasicAudioSession.init "s1" 0) (by decide)).1⟩

/-- **C10.** In the service wired to the HTTP and WebSocket interfaces,
`stop_recording` on an existing session only clears the recording flag
and sets the recording end timestamp; segment log, running transcript,
audio buffer, delivery queue and every other field — and every other
session — are untouched, and no transcription call happens (the
transcriber oracle does not occur in `stop_recording` at all), so
buffered audio is not flushed. -/
theorem c10_stop_recording_frame (svc : BasicRealtimeAudioService)
    (sid : String) (s : BasicAudioSession) (now : Nat)
    (h : svc.sessions sid = some s) :
    (svc.stop_recording sid now).2 = true ∧
    (svc.stop_recording sid now).1.sessions sid =
      some { s with is_recording := false, recording_end_time := some now } ∧
    (∃ s', (svc.stop_recording sid now).1.sessions sid = some s' ∧
      s'.transcription_segments = s.transcription_segments ∧
      s'.full_transcription = s.full_transcription ∧
      s'.audio_buffer = s.audio_buffer ∧
      s'.transcription_queue = s.transcription_queue ∧
      s'.last_transcription_time = s.last_transcription_time ∧
      s'.recording_start_time = s.recording_start_time ∧
      s'.session_id = s.session_id ∧
      s'.created_at = s.created_at ∧
      s'.is_recording = false ∧
      s'.recording_end_time = some now) ∧
    (∀ sid₀, sid₀ ≠ sid →
      (svc.stop_recording sid now).1.sessions sid₀ = svc.sessions sid₀) := by
  unfold BasicRealtimeAudioService.stop_recording
  rw [h]
  refine ⟨rfl, ?_, ?_, ?_⟩
  · exact BasicRealtimeAudioService.update_self ..
  · refine ⟨s.stop_recording now, BasicRealtimeAudioService.update_self .., ?_⟩
    exact ⟨rfl, rfl, rfl, rfl, rfl, rfl, rfl, rfl, rfl, rfl⟩
  · intro sid₀ h₀
    exact BasicRealtimeAudioService.update_other _ _ h₀

theorem c10_stop_recording_frame_witness :
    svcS1Buffered.sessions "s1" =
      some (((BasicAudioSession.init "s1" 0).start_recording 1).add_audio_data
        [9, 9, 9, 9]) ∧
    (svcS1Buffered.stop_recording "s1" 9).2 = true :=
  ⟨by decide, (c10_stop_recording_frame svcS1Buffered "s1"
    (((BasicAudioSession.init "s1" 0).start_recording 1).add_audio_data
      [9, 9, 9, 9]) 9 (by decide)).1⟩



/-- **C4.** At every observation point of every reachable state — any
sequence of service operations from a fresh service — the reported full
transcription, stripped of surrounding whitespace, equals the segment-log
texts joined with single spaces; both the status query and the
transcription poll report exactly that value. -/
theorem c4_transcript_derivation (tr : Transcriber) (ops : List BasicOp)
    (sid : String) (s : BasicAudioSession)
    (h : (BasicRealtimeAudioService.empty.run tr ops).sessions sid = some s) :
    strip s.full_transcription =
      joinWithSpace (s.transcription_segments.map Segment.text) ∧
    (∀ r, ((BasicRealtimeAudioService.empty.run tr ops).get_live_transcription
        sid).2 = some r →
      r.full_transcription =
        joinWithSpace (s.transcription_segments.map Segment.text)) ∧
    (∀ now st, (BasicRealtimeAudioService.empty.run tr ops).get_session_status
        sid now = some st →
      st.full_transcription =
        joinWithSpace (s.transcription_segments.map Segment.text)) := by
  obtain ⟨h1, h2⟩ := BasicRealtimeAudioService.serviceInv_run
    BasicRealtimeAudioService.serviceInv_empty tr ops sid s h
  have hmain : strip s.full_transcription =
      joinWithSpace (s.transcription_segments.map Segment.text) := by
    rw [h1]
    refine strip_glue _ ?_
    intro t ht
    simp only [List.mem_map] at ht
    obtain ⟨seg, hseg, rfl⟩ := ht
    exact h2 seg hseg
  refine ⟨hmain, ?_, ?_⟩
  · intro r hr
    unfold BasicRealtimeAudioService.get_live_transcription at hr
    rw [h] at hr
    dsimp only at hr
    cases hr
    exact hmain
  · intro now st hst
    unfold BasicRealtimeAudioService.get_session_status at hst
    rw [h] at hst
    dsimp only at hst
    cases hst
    exact hmain

theorem c4_transcript_derivation_witness :
    (BasicRealtimeAudioService.empty.run trHi opsWit).sessions "a" =
      some sWit ∧
    strip sWit.full_transcription =
      joinWithSpace (sWit.transcription_segments.map Segment.text) :=
  ⟨by decide,
    (c4_transcript_derivation trHi opsWit "a" sWit (by decide)).1⟩



namespace BasicRealtimeAudioService

lemma run_append (tr : Transcriber) (svc : BasicRealtimeAudioService)
    (l1 l2 : List BasicOp) :
    svc.run tr (l1 ++ l2) = (svc.run tr l1).run tr l2 := by
  induction l1 generalizing svc with
  | nil => rfl
  | cons op l1 ih =>
    rw [List.cons_append, run, run, ih]

/-- With a failing transcriber, one `process_audio_data` call is never a
not-found error, appends the audio to the buffer (or clears the buffer
after a failed flush attempt), and leaves the recording flag, segment log
and transcript untouched. -/
lemma process_detail_failing (tr : Transcriber)
    (htr : ∀ wav, ∃ e, tr wav = Except.error e)
    (svc : BasicRealtimeAudioService) (sid : String)
    (s0 : BasicAudioSession) (data : List Nat) (now : Nat)
    (h : svc.sessions sid = some s0) :
    (process_audio_data tr svc sid data now).2 ≠ ProcessResult.notFound ∧
    ∃ s1, (process_audio_data tr svc sid data now).1.sessions sid = some s1 ∧
      (s1.audio_buffer = s0.audio_buffer ++ data ∨ s1.audio_buffer = []) ∧
      s1.is_recording = s0.is_recording ∧
      s1.transcription_segments = s0.transcription_segments ∧
      s1.full_transcription = s0.full_transcription := by
  obtain ⟨e, he⟩ :=
    htr (_create_temp_wav_from_buffer (s0.add_audio_data data).audio_buffer)
  unfold process_audio_data
  rw [h]
  dsimp only
  by_cases hd : divGeRat (s0.add_audio_data data).audio_buffer.length
      (16000 * 2) 3 = true
  · rw [if_pos hd]
    have htf : transcribe_audio_file tr (svc.update sid (s0.add_audio_data data))
        sid (_create_temp_wav_from_buffer (s0.add_audio_data data).audio_buffer)
        now = (svc.update sid (s0.add_audio_data data),
          .transcriptionError e) := by
      unfold transcribe_audio_file
      rw [update_self, he]
    rw [htf]
    dsimp only
    rw [update_self]
    exact ⟨by simp, (s0.add_audio_data data).clear_audio_buffer,
      update_self .., Or.inr rfl, rfl, rfl, rfl⟩
  · rw [if_neg hd]
    exact ⟨by simp, s0.add_audio_data data, update_self .., Or.inl rfl,
      rfl, rfl, rfl⟩

end BasicRealtimeAudioService

/-- **C5.** With an external transcription collaborator that fails on
every call, the end-to-end scenario — create, start, any number of audio
chunks, stop — never surfaces an error to the audio-ingestion caller:
every `process_audio_data` call returns a value (not a missing-session
error) with the audio accepted into the buffer and the session state
(recording flag, segment log, transcript) unaffected; after stop the
session has zero segments and an empty final transcription. -/
theorem c5_failing_transcriber_absorbed (tr : Transcriber)
    (htr : ∀ wav, ∃ e, tr wav = Except.error e)
    (sid : String) (chunks : List (List Nat × Nat)) (now0 now1 now2 : Nat) :
    (∃ s, (BasicRealtimeAudioService.empty.run tr
        (scenarioOps sid chunks now0 now1 now2)).sessions sid = some s ∧
      s.transcription_segments = [] ∧
      s.full_transcription = []) ∧
    (BasicRealtimeAudioService.empty.run tr
      (scenarioOps sid chunks now0 now1 now2)).get_final_transcription sid =
      some [] ∧
    (∀ svc (s0 : BasicAudioSession) data now,
      svc.sessions sid = some s0 →
      (BasicRealtimeAudioService.process_audio_data tr svc sid data now).2 ≠
        ProcessResult.notFound ∧
      ∃ s1, (BasicRealtimeAudioService.process_audio_data tr svc sid data
          now).1.sessions sid = some s1 ∧
        (s1.audio_buffer = s0.audio_buffer ++ data ∨ s1.audio_buffer = []) ∧
        s1.is_recording = s0.is_recording ∧
        s1.transcription_segments = s0.transcription_segments) := by
  have hchunks : ∀ (cs : List (List Nat × Nat))
      (svc : BasicRealtimeAudioService) (s : BasicAudioSession),
      svc.sessions sid = some s → s.transcription_segments = [] →
      s.full_transcription = [] →
      ∃ s2, (svc.run tr (cs.map (fun c => BasicOp.processAudio sid c.1
          c.2))).sessions sid = some s2 ∧
        s2.transcription_segments = [] ∧ s2.full_transcription = [] := by
    intro cs
    induction cs with
    | nil => exact fun svc s h h1 h2 => ⟨s, h, h1, h2⟩
    | cons c cs ih =>
      intro svc s h h1 h2
      obtain ⟨-, s1, hl1, -, -, hsegs, hfull⟩ :=
        BasicRealtimeAudioService.process_detail_failing tr htr svc sid s
          c.1 c.2 h
      exact ih _ s1 hl1 (hsegs.trans h1) (hfull.trans h2)
  have hcreate : ((BasicRealtimeAudioService.empty.runOp tr
      (.create sid now0)).runOp tr (.start sid now1)).sessions sid =
      some ((BasicAudioSession.init sid now0).start_recording now1) := by
    unfold BasicRealtimeAudioService.runOp
      BasicRealtimeAudioService.create_session
      BasicRealtimeAudioService.start_recording
    dsimp only
    rw [BasicRealtimeAudioService.update_self]
    exact BasicRealtimeAudioService.update_self ..
  obtain ⟨s2, hl2, hsegs2, hfull2⟩ := hchunks chunks _ _ hcreate rfl rfl
  have hM : BasicRealtimeAudioService.empty.run tr
      (scenarioOps sid chunks now0 now1 now2) =
      (((BasicRealtimeAudioService.empty.runOp tr
        (.create sid now0)).runOp tr (.start sid now1)).run tr
          (chunks.map (fun c => BasicOp.processAudio sid c.1 c.2))).runOp tr
        (.stop sid now2) := by
    unfold scenarioOps
    simp only [BasicRealtimeAudioService.run]
    rw [BasicRealtimeAudioService.run_append]
    simp only [BasicRealtimeAudioService.run]
  have hstop : (BasicRealtimeAudioService.empty.run tr
      (scenarioOps sid chunks now0 now1 now2)).sessions sid =
      some (s2.stop_recording now2) := by
    rw [hM]
    set X := ((BasicRealtimeAudioService.empty.runOp tr
      (.create sid now0)).runOp tr (.start sid now1)).run tr
        (chunks.map (fun c => BasicOp.processAudio sid c.1 c.2)) with hX
    unfold BasicRealtimeAudioService.runOp
      BasicRealtimeAudioService.stop_recording
    dsimp only
    rw [hl2]
    exact BasicRealtimeAudioService.update_self ..
  refine ⟨⟨s2.stop_recording now2, hstop, hsegs2, hfull2⟩, ?_, ?_⟩
  · unfold BasicRealtimeAudioService.get_final_transcription
    rw [hstop]
    dsimp only
    rw [show (s2.stop_recording now2).full_transcription =
        s2.full_transcription from rfl, hfull2]
    rfl
  · intro svc s0 data now h0
    obtain ⟨hnf, s1, hl1, hbuf, hrec, hsegs, -⟩ :=
      BasicRealtimeAudioService.process_detail_failing tr htr svc sid s0
        data now h0
    exact ⟨hnf, s1, hl1, hbuf, hrec, hsegs⟩

theorem c5_failing_transcriber_absorbed_witness :
    (∀ wav, ∃ e, trFail wav = Except.error e) ∧
    (BasicRealtimeAudioService.empty.run trFail
      (scenarioOps "a" [([1], 2)] 0 1 3)).get_final_transcription "a" =
      some [] :=
  ⟨fun _ => ⟨['x'], rfl⟩,
    (c5_failing_transcriber_absorbed trFail (fun _ => ⟨['x'], rfl⟩)
      "a" [([1], 2)] 0 1 3).2.1⟩



namespace BasicRealtimeAudioService

lemma join_append_lists {α : Type} (a b : List (List α)) :
    (a ++ b).join = a.join ++ b.join := by
  induction a with
  | nil => rfl
  | cons x a ih => simp [List.join, ih]

lemma transcribe_other (tr : Transcriber) (svc : BasicRealtimeAudioService)
    (sid₀ : String) (wav : List Nat) (now : Nat) {psid : String}
    (h : psid ≠ sid₀) :
    (transcribe_audio_file tr svc sid₀ wav now).1.sessions psid =
      svc.sessions psid := by
  unfold transcribe_audio_file
  cases hl : svc.sessions sid₀ with
  | none => rfl
  | some s =>
    cases htr : tr wav with
    | error e => rfl
    | ok p =>
      obtain ⟨text, confidence⟩ := p
      dsimp only
      by_cases hs : strip text ≠ []
      · rw [if_pos hs]
        exact update_other _ _ h
      · rw [if_neg hs]

lemma process_other (tr : Transcriber) (svc : BasicRealtimeAudioService)
    (sid₀ : String) (data : List Nat) (now : Nat) {psid : String}
    (h : psid ≠ sid₀) :
    (process_audio_data tr svc sid₀ data now).1.sessions psid =
      svc.sessions psid := by
  unfold process_audio_data
  cases hl : svc.sessions sid₀ with
  | none => rfl
  | some s =>
    dsimp only
    by_cases hd : divGeRat (s.add_audio_data data).audio_buffer.length
        (16000 * 2) 3 = true
    · rw [if_pos hd]
      cases h3 : (transcribe_audio_file tr (svc.update sid₀ (s.add_audio_data
          data)) sid₀ (_create_temp_wav_from_buffer (s.add_audio_data
            data).audio_buffer) now).1.sessions sid₀ with
      | none =>
        dsimp only
        rw [transcribe_other tr _ _ _ _ h, update_other _ _ h]
      | some s2 =>
        dsimp only
        rw [update_other _ _ h, transcribe_other tr _ _ _ _ h,
          update_other _ _ h]
    · rw [if_neg hd]
      exact update_other _ _ h

lemma runOp_other (tr : Transcriber) (svc : BasicRealtimeAudioService)
    (op : BasicOp) {psid : String} (h : psid ≠ op.sid) :
    (svc.runOp tr op).sessions psid = svc.sessions psid := by
  cases op with
  | create session_id now =>
    exact update_other _ _ h
  | start session_id now =>
    simp only [runOp]
    unfold start_recording
    cases hl : svc.sessions session_id with
    | none => rfl
    | some s => exact update_other _ _ h
  | stop session_id now =>
    simp only [runOp]
    unfold stop_recording
    cases hl : svc.sessions session_id with
    | none => rfl
    | some s => exact update_other _ _ h
  | processAudio session_id data now => exact process_other tr svc _ _ _ h
  | transcribeFile session_id wav now => exact transcribe_other tr svc _ _ _ h
  | getLive session_id =>
    simp only [runOp]
    unfold get_live_transcription
    cases hl : svc.sessions session_id with
    | none => rfl
    | some s => exact update_other _ _ h
  | cleanup session_id =>
    simp only [runOp]
    unfold cleanup_session
    cases hl : svc.sessions session_id with
    | none => rfl
    | some s => exact erase_other _ h

/-- A transcription attempt appends the same (possibly empty) batch of
segments to the delivery queue and to the segment log. -/
lemma transcribe_delta (tr : Transcriber) (svc : BasicRealtimeAudioService)
    (sid : String) (wav : List Nat) (now : Nat) (s0 : BasicAudioSession)
    (h : svc.sessions sid = some s0) :
    ∃ s1 ns, (transcribe_audio_file tr svc sid wav now).1.sessions sid =
        some s1 ∧
      s1.transcription_queue = s0.transcription_queue ++ ns ∧
      s1.transcription_segments = s0.transcription_segments ++ ns := by
  unfold transcribe_audio_file
  rw [h]
  cases htr : tr wav with
  | error e => exact ⟨s0, [], h, by simp, by simp⟩
  | ok p =>
    obtain ⟨text, confidence⟩ := p
    dsimp only
    by_cases hs : strip text ≠ []
    · rw [if_pos hs]
      exact ⟨_, _, update_self .., rfl, rfl⟩
    · rw [if_neg hs]
      exact ⟨s0, [], h, by simp, by simp⟩

lemma process_delta (tr : Transcriber) (svc : BasicRealtimeAudioService)
    (sid : String) (data : List Nat) (now : Nat) (s0 : BasicAudioSession)
    (h : svc.sessions sid = some s0) :
    ∃ s1 ns, (process_audio_data tr svc sid data now).1.sessions sid =
        some s1 ∧
      s1.transcription_queue = s0.transcription_queue ++ ns ∧
      s1.transcription_segments = s0.transcription_segments ++ ns := by
  unfold process_audio_data
  rw [h]
  dsimp only
  by_cases hd : divGeRat (s0.add_audio_data data).audio_buffer.length
      (16000 * 2) 3 = true
  · rw [if_pos hd]
    obtain ⟨s1, ns, hl1, hq1, hs1⟩ := transcribe_delta tr
      (svc.update sid (s0.add_audio_data data)) sid
      (_create_temp_wav_from_buffer (s0.add_audio_data data).audio_buffer)
      now (s0.add_audio_data data) (update_self ..)
    rw [hl1]
    dsimp only
    exact ⟨s1.clear_audio_buffer, ns, update_self .., hq1, hs1⟩
  · rw [if_neg hd]
    exact ⟨s0.add_audio_data data, [], update_self ..,
      by simp [BasicAudioSession.add_audio_data],
      by simp [BasicAudioSession.add_audio_data]⟩

/-- One step of the poll/append bookkeeping: any operation that does not
create or destroy the polled session preserves `QueueInv`, with every
drained queue accounted to the poller. -/
lemma step_queue (tr : Transcriber) (svc : BasicRealtimeAudioService)
    (psid : String) (op : BasicOp) (hop : touchesLifecycle op psid = false)
    (s0 : BasicAudioSession) (d0 : List Segment)
    (h : svc.sessions psid = some s0) (hq : QueueInv s0 d0) :
    ∃ s1, (svc.runOp tr op).sessions psid = some s1 ∧
      QueueInv s1 (d0 ++ (pollOut svc op psid).join) := by
  cases op with
  | create session_id now =>
    have hne : psid ≠ session_id := by
      intro he
      rw [touchesLifecycle, he] at hop
      simp at hop
    rw [pollOut]
    refine ⟨s0, ?_, by simpa using hq⟩
    rw [runOp_other tr svc _ (by simpa [BasicOp.sid] using hne)]
    exact h
  | cleanup session_id =>
    have hne : psid ≠ session_id := by
      intro he
      rw [touchesLifecycle, he] at hop
      simp at hop
    rw [pollOut]
    refine ⟨s0, ?_, by simpa using hq⟩
    rw [runOp_other tr svc _ (by simpa [BasicOp.sid] using hne)]
    exact h
  | start session_id now =>
    rw [pollOut]
    by_cases he : psid = session_id
    · subst he
      simp only [runOp]
      unfold start_recording
      rw [h]
      exact ⟨s0.start_recording now, update_self .., by simpa using hq⟩
    · refine ⟨s0, ?_, by simpa using hq⟩
      rw [runOp_other tr svc _ (by simpa [BasicOp.sid] using he)]
      exact h
  | stop session_id now =>
    rw [pollOut]
    by_cases he : psid = session_id
    · subst he
      simp only [runOp]
      unfold stop_recording
      rw [h]
      exact ⟨s0.stop_recording now, update_self .., by simpa using hq⟩
    · refine ⟨s0, ?_, by simpa using hq⟩
      rw [runOp_other tr svc _ (by simpa [BasicOp.sid] using he)]
      exact h
  | processAudio session_id data now =>
    rw [pollOut]
    by_cases he : psid = session_id
    · subst he
      obtain ⟨s1, ns, hl1, hq1, hs1⟩ := process_delta tr svc _ data now s0 h
      refine ⟨s1, hl1, ?_⟩
      unfold QueueInv at hq ⊢
      rw [hq1, hs1, ← hq]
      simp [List.append_assoc]
    · refine ⟨s0, ?_, by simpa using hq⟩
      rw [runOp_other tr svc _ (by simpa [BasicOp.sid] using he)]
      exact h
  | transcribeFile session_id wav now =>
    rw [pollOut]
    by_cases he : psid = session_id
    · subst he
      obtain ⟨s1, ns, hl1, hq1, hs1⟩ := transcribe_delta tr svc _ wav now s0 h
      refine ⟨s1, hl1, ?_⟩
      unfold QueueInv at hq ⊢
      rw [hq1, hs1, ← hq]
      simp [List.append_assoc]
    · refine ⟨s0, ?_, by simpa using hq⟩
      rw [runOp_other tr svc _ (by simpa [BasicOp.sid] using he)]
      exact h
  | getLive session_id =>
    by_cases he : psid = session_id
    · subst he
      rw [pollOut, if_pos rfl]
      have hlive : (svc.get_live_transcription psid).2 = some
          { session_id := psid, is_recording := s0.is_recording,
            new_segments := s0.transcription_queue,
            full_transcription := strip s0.full_transcription,
            segment_count := s0.transcription_segments.length } := by
        unfold get_live_transcription
        rw [h]
      rw [hlive]
      refine ⟨{ s0 with transcription_queue := [] }, ?_, ?_⟩
      · simp only [runOp]
        unfold get_live_transcription
        rw [h]
        exact update_self ..
      · unfold QueueInv at hq ⊢
        simpa using hq
    · rw [pollOut, if_neg (fun hc => he hc.symm)]
      refine ⟨s0, ?_, by simpa using hq⟩
      rw [runOp_other tr svc _ (by simpa [BasicOp.sid] using he)]
      exact h

lemma runCollect_queueInv (tr : Transcriber) (psid : String)
    (ops : List BasicOp)
    (hops : ∀ op ∈ ops, touchesLifecycle op psid = false) :
    ∀ (svc : BasicRealtimeAudioService) (s0 : BasicAudioSession)
      (d0 : List Segment), svc.sessions psid = some s0 → QueueInv s0 d0 →
      ∃ s1, (runCollect tr psid svc ops).1.sessions psid = some s1 ∧
        QueueInv s1 (d0 ++ (runCollect tr psid svc ops).2.join) := by
  induction ops with
  | nil =>
    intro svc s0 d0 h hq
    exact ⟨s0, h, by simpa [runCollect] using hq⟩
  | cons op ops ih =>
    intro svc s0 d0 h hq
    obtain ⟨s1, hl1, hq1⟩ := step_queue tr svc psid op
      (hops op (by simp)) s0 d0 h hq
    obtain ⟨s2, hl2, hq2⟩ := ih
      (fun o ho => hops o (List.mem_cons_of_mem _ ho))
      (svc.runOp tr op) s1 (d0 ++ (pollOut svc op psid).join) hl1 hq1
    refine ⟨s2, ?_, ?_⟩
    · rw [runCollect]
      exact hl2
    · rw [runCollect]
      dsimp only
      unfold QueueInv at hq2 ⊢
      rw [join_append_lists, ← List.append_assoc]
      exact hq2

end BasicRealtimeAudioService



/-- **C7.** For any interleaving of service operations that does not
create or destroy the polled session, the concatenation of the
`new_segments` lists over all of the poller's polls, followed by the
still-undelivered queue, is exactly the segment log in append order — so
each appended segment is delivered in exactly one poll (once the queue is
drained the concatenation equals the log), and an immediately repeated
poll returns an empty `new_segments` list. -/
theorem c7_poll_drains_exactly_once (tr : Transcriber) (ops : List BasicOp)
    (sid : String) (now : Nat)
    (hops : ∀ op ∈ ops, touchesLifecycle op sid = false) :
    (∃ s, (BasicRealtimeAudioService.runCollect tr sid
        (BasicRealtimeAudioService.empty.create_session sid now).1
        ops).1.sessions sid = some s ∧
      (BasicRealtimeAudioService.runCollect tr sid
        (BasicRealtimeAudioService.empty.create_session sid now).1
        ops).2.join ++ s.transcription_queue = s.transcription_segments) ∧
    (∀ (svc : BasicRealtimeAudioService) r,
      ((svc.get_live_transcription sid).1.get_live_transcription sid).2 =
        some r → r.new_segments = []) := by
  constructor
  · obtain ⟨s1, hl1, hq1⟩ :=
      BasicRealtimeAudioService.runCollect_queueInv tr sid ops hops
        (BasicRealtimeAudioService.empty.create_session sid now).1
        (BasicAudioSession.init sid now) []
        (BasicRealtimeAudioService.update_self ..) rfl
    refine ⟨s1, hl1, ?_⟩
    unfold QueueInv at hq1
    simpa using hq1
  · intro svc r hr
    cases hl : svc.sessions sid with
    | none =>
      unfold BasicRealtimeAudioService.get_live_transcription at hr
      rw [hl] at hr
      dsimp only at hr
      rw [hl] at hr
      simp at hr
    | some s =>
      unfold BasicRealtimeAudioService.get_live_transcription at hr
      rw [hl] at hr
      dsimp only at hr
      rw [BasicRealtimeAudioService.update_self] at hr
      dsimp only at hr
      cases hr
      rfl

theorem c7_poll_drains_exactly_once_witness :
    (∀ op ∈ ([BasicOp.transcribeFile "s1" [1] 1, BasicOp.getLive "s1"] :
        List BasicOp), touchesLifecycle op "s1" = false) ∧
    ((svcS1.get_live_transcription "s1").1.get_live_transcription "s1").2 =
      some { session_id := "s1", is_recording := false, new_segments := [],
             full_transcription := [], segment_count := 0 } ∧
    ({ session_id := "s1", is_recording := false, new_segments := [],
       full_transcription := [], segment_count := 0 } :
         LiveTranscription).new_segments = [] :=
  ⟨by decide, by decide,
    (c7_poll_drains_exactly_once trHi
      [BasicOp.transcribeFile "s1" [1] 1, BasicOp.getLive "s1"] "s1" 0
      (by decide)).2 svcS1 _ (by decide)⟩


end NHSAudio
